import Mathlib

set_option maxRecDepth 8000

namespace XhsAiTool

/-!
Shallow embedding of the AI request/response adapter layer of the
`xhs-ai-tool` browser extension (sources: `src/services/AIService.ts`,
`src/components/ChatInterface.tsx`, `src/services/messageTypes.ts` and
the unnamed rewrites of the same module).

JS strings are modelled as `List Char` (string lengths therefore count
code points), JS values produced by `JSON.parse` as the inductive
`Json`, and the platform functions `JSON.parse` / `JSON.stringify` as
an executable recursive-descent parser and serializer over that model.
-/

/-- JS whitespace, as matched by `String.prototype.trim` and the regex
class used in the fence-stripping replaces. -/
def isJsWs (c : Char) : Bool :=
  c = ' ' || c = '\t' || c = '\n' || c = '\r' || c = '\u000b' || c = '\u000c' ||
  c = '\u00a0' || c = '\u2028' || c = '\u2029' || c = '\ufeff'

/-- Drop trailing JS whitespace. -/
def dropTrailingWs (s : List Char) : List Char :=
  (s.reverse.dropWhile isJsWs).reverse

/-- Model of JS `String.prototype.trim`. -/
def jsTrim (s : List Char) : List Char :=
  dropTrailingWs (s.dropWhile isJsWs)

/-- Model of JS `String.prototype.startsWith`. -/
def startsWithL : List Char → List Char → Bool
  | _, [] => true
  | [], _ :: _ => false
  | c :: s, p :: ps => c == p && startsWithL s ps

/-- Model of JS `String.prototype.endsWith`. -/
def endsWithL (s suf : List Char) : Bool :=
  startsWithL s.reverse suf.reverse

/-- Model of JS `String.prototype.includes`. -/
def containsSub : List Char → List Char → Bool
  | s, sub =>
    if startsWithL s sub then true
    else
      match s with
      | [] => false
      | _ :: t => containsSub t sub

/-- JS values as produced by `JSON.parse` (numbers restricted to the
integer-valued ones). -/
inductive Json where
  | null
  | jbool (b : Bool)
  | jnum (n : Int)
  | jstr (s : List Char)
  | jarr (elems : List Json)
  | jobj (fields : List (List Char × Json))

/-- Hexadecimal digit characters, lower case (as `JSON.stringify` emits). -/
def hexDigitChar (n : Nat) : Char :=
  if n < 10 then Char.ofNat (48 + n) else Char.ofNat (87 + n)

/-- Escaping of a single character inside a JSON string literal,
following `JSON.stringify`. -/
def escapeChar (c : Char) : List Char :=
  if c = '"' then ['\\', '"']
  else if c = '\\' then ['\\', '\\']
  else if c = '\u0008' then ['\\', 'b']
  else if c = '\u000c' then ['\\', 'f']
  else if c = '\n' then ['\\', 'n']
  else if c = '\r' then ['\\', 'r']
  else if c = '\t' then ['\\', 't']
  else if c.toNat < 32 then
    ['\\', 'u', '0', '0', hexDigitChar (c.toNat / 16), hexDigitChar (c.toNat % 16)]
  else [c]

def escapeString (s : List Char) : List Char :=
  (s.map escapeChar).flatten

/-- Decimal rendering of an integer (JS number formatting restricted to
integer values). -/
def serializeInt (n : Int) : List Char :=
  if n < 0 then '-' :: Nat.toDigits 10 n.natAbs else Nat.toDigits 10 n.toNat

mutual

/-- Model of the platform `JSON.stringify` on the `Json` value model. -/
def serializeJson : Json → List Char
  | .null => "null".toList
  | .jbool true => "true".toList
  | .jbool false => "false".toList
  | .jnum n => serializeInt n
  | .jstr s => '"' :: (escapeString s ++ ['"'])
  | .jarr xs => '[' :: (serializeElems xs ++ [']'])
  | .jobj fs => '{' :: (serializeMembers fs ++ ['}'])

def serializeElems : List Json → List Char
  | [] => []
  | [x] => serializeJson x
  | x :: y :: xs => serializeJson x ++ ',' :: serializeElems (y :: xs)

def serializeMembers : List (List Char × Json) → List Char
  | [] => []
  | [(k, v)] => '"' :: (escapeString k ++ '"' :: ':' :: serializeJson v)
  | (k, v) :: m :: ms =>
      ('"' :: (escapeString k ++ '"' :: ':' :: serializeJson v)) ++
        ',' :: serializeMembers (m :: ms)

end

/-- JSON grammar whitespace (space, tab, line feed, carriage return). -/
def isJsonWs (c : Char) : Bool :=
  c = ' ' || c = '\t' || c = '\n' || c = '\r'

def skipJsonWs (s : List Char) : List Char := s.dropWhile isJsonWs

def dropTrailingJsonWs (s : List Char) : List Char :=
  (s.reverse.dropWhile isJsonWs).reverse

def hexVal (c : Char) : Option Nat :=
  if '0' ≤ c ∧ c ≤ '9' then some (c.toNat - 48)
  else if 'a' ≤ c ∧ c ≤ 'f' then some (c.toNat - 87)
  else if 'A' ≤ c ∧ c ≤ 'F' then some (c.toNat - 55)
  else none

def digitsToNat (ds : List Char) : Nat :=
  ds.foldl (fun a c => a * 10 + (c.toNat - 48)) 0

/-- JSON string-literal body: everything after the opening quote up to
the closing quote, unescaping as `JSON.parse` does. -/
def parseStringRest : List Char → List Char → Option (List Char × List Char)
  | [], _ => none
  | '"' :: r, acc => some (acc.reverse, r)
  | '\\' :: '"' :: r, acc => parseStringRest r ('"' :: acc)
  | '\\' :: '\\' :: r, acc => parseStringRest r ('\\' :: acc)
  | '\\' :: '/' :: r, acc => parseStringRest r ('/' :: acc)
  | '\\' :: 'b' :: r, acc => parseStringRest r ('\u0008' :: acc)
  | '\\' :: 'f' :: r, acc => parseStringRest r ('\u000c' :: acc)
  | '\\' :: 'n' :: r, acc => parseStringRest r ('\n' :: acc)
  | '\\' :: 'r' :: r, acc => parseStringRest r ('\r' :: acc)
  | '\\' :: 't' :: r, acc => parseStringRest r ('\t' :: acc)
  | '\\' :: 'u' :: h1 :: h2 :: h3 :: h4 :: r, acc =>
      match hexVal h1, hexVal h2, hexVal h3, hexVal h4 with
      | some a, some b, some c, some d =>
          parseStringRest r (Char.ofNat (((a * 16 + b) * 16 + c) * 16 + d) :: acc)
      | _, _, _, _ => none
  | '\\' :: _, _ => none
  | c :: r, acc => parseStringRest r (c :: acc)

mutual

/-- Fuel-indexed recursive-descent JSON value parser (model of the
value production of `JSON.parse`). -/
def parseJsonValue : Nat → List Char → Option (Json × List Char)
  | 0, _ => none
  | f + 1, s =>
    match s with
    | '{' :: rest =>
        (match skipJsonWs rest with
         | '}' :: r2 => some (.jobj [], r2)
         | r => parseJsonMembers f r [])
    | '[' :: rest =>
        (match skipJsonWs rest with
         | ']' :: r2 => some (.jarr [], r2)
         | r => parseJsonElems f r [])
    | '"' :: rest =>
        (match parseStringRest rest [] with
         | some (cs, r) => some (.jstr cs, r)
         | none => none)
    | 't' :: 'r' :: 'u' :: 'e' :: r => some (.jbool true, r)
    | 'f' :: 'a' :: 'l' :: 's' :: 'e' :: r => some (.jbool false, r)
    | 'n' :: 'u' :: 'l' :: 'l' :: r => some (.null, r)
    | '-' :: rest =>
        (match rest.takeWhile Char.isDigit with
         | [] => none
         | ds => some (.jnum (-(Int.ofNat (digitsToNat ds))), rest.dropWhile Char.isDigit))
    | c :: rest =>
        if c.isDigit then
          some (.jnum (Int.ofNat (digitsToNat ((c :: rest).takeWhile Char.isDigit))),
                (c :: rest).dropWhile Char.isDigit)
        else none
    | [] => none

def parseJsonMembers :
    Nat → List Char → List (List Char × Json) → Option (Json × List Char)
  | 0, _, _ => none
  | f + 1, s, acc =>
    match s with
    | '"' :: rest =>
        (match parseStringRest rest [] with
         | some (k, r1) =>
             (match skipJsonWs r1 with
              | ':' :: r2 =>
                  (match parseJsonValue f (skipJsonWs r2) with
                   | some (v, r3) =>
                       (match skipJsonWs r3 with
                        | ',' :: r4 => parseJsonMembers f (skipJsonWs r4) (acc ++ [(k, v)])
                        | '}' :: r4 => some (.jobj (acc ++ [(k, v)]), r4)
                        | _ => none)
                   | none => none)
              | _ => none)
         | none => none)
    | _ => none

def parseJsonElems : Nat → List Char → List Json → Option (Json × List Char)
  | 0, _, _ => none
  | f + 1, s, acc =>
    match parseJsonValue f s with
    | some (v, r1) =>
        (match skipJsonWs r1 with
         | ',' :: r2 => parseJsonElems f (skipJsonWs r2) (acc ++ [v])
         | ']' :: r2 => some (.jarr (acc ++ [v]), r2)
         | _ => none)
    | none => none

end

/-- Model of the platform `JSON.parse`: a JSON document is a single
value surrounded by whitespace. -/
def jsonParse (s : List Char) : Option Json :=
  let t := dropTrailingJsonWs (skipJsonWs s)
  match parseJsonValue (t.length + 1) t with
  | some (v, []) => some v
  | _ => none

/-- The `` ```json `` fence opener recognised by `requestAIResponse`. -/
def fenceJsonTag : List Char := "```json".toList

/-- The bare `` ``` `` fence token. -/
def fenceTag : List Char := "```".toList

/-- Model of `cleaned.replace(/```\s*$/, '')` (ChatInterface.tsx): the
regex matches a final `` ``` `` followed only by whitespace, so the
replace removes that suffix when present and otherwise leaves the
string unchanged. -/
def stripFenceEnd (s : List Char) : List Char :=
  let t := dropTrailingWs s
  if endsWithL t fenceTag then t.take (t.length - 3) else s

/-- Fence-stripping step of `requestAIResponse`
(`src/components/ChatInterface.tsx`): trim, then remove a leading
`` ```json `` or `` ``` `` together with the whitespace the anchored
regex consumes after it, and then a trailing fence. -/
def cleanAIContent (raw : List Char) : List Char :=
  let c := jsTrim raw
  if startsWithL c fenceJsonTag then stripFenceEnd ((c.drop 7).dropWhile isJsWs)
  else if startsWithL c fenceTag then stripFenceEnd ((c.drop 3).dropWhile isJsWs)
  else c

/-- The extraction step of `requestAIResponse`: trim, strip code
fences, `JSON.parse`. -/
def extractStep (raw : List Char) : Option Json :=
  jsonParse (cleanAIContent raw)

lemma fenceJsonTag_eq : fenceJsonTag = ['`', '`', '`', 'j', 's', 'o', 'n'] := rfl

lemma fenceTag_eq : fenceTag = ['`', '`', '`'] := rfl

lemma startsWithL_append_self (p t : List Char) : startsWithL (p ++ t) p = true := by
  induction p with
  | nil => cases t <;> rfl
  | cons c cs ih => simpa [startsWithL] using ih

lemma endsWithL_append_self (a b : List Char) : endsWithL (a ++ b) b = true := by
  simpa [endsWithL, List.reverse_append] using startsWithL_append_self b.reverse a.reverse

lemma dropTrailingWs_append_nonws (s : List Char) (c : Char) (h : isJsWs c = false) :
    dropTrailingWs (s ++ [c]) = s ++ [c] := by
  have h2 : ¬ (isJsWs c = true) := by simp [h]
  simp [dropTrailingWs, List.reverse_append, List.dropWhile_cons_of_neg h2]

lemma dropTrailingJsonWs_append_nonws (s : List Char) (c : Char) (h : isJsonWs c = false) :
    dropTrailingJsonWs (s ++ [c]) = s ++ [c] := by
  have h2 : ¬ (isJsonWs c = true) := by simp [h]
  simp [dropTrailingJsonWs, List.reverse_append, List.dropWhile_cons_of_neg h2]

lemma dropTrailingJsonWs_append_ws (s : List Char) (c : Char) (h : isJsonWs c = true) :
    dropTrailingJsonWs (s ++ [c]) = dropTrailingJsonWs s := by
  simp [dropTrailingJsonWs, List.reverse_append, List.dropWhile_cons_of_pos h]

/-- The fence-stripping step maps a fenced document whose body starts
with `{` to the body followed by one newline. -/
lemma cleanAIContent_fenced (t : List Char) :
    cleanAIContent ("```json\n".toList ++ ('{' :: t) ++ "\n```".toList) =
      ('{' :: t) ++ ['\n'] := by
  have hW :
      "```json\n".toList ++ ('{' :: t) ++ "\n```".toList =
        '`' :: '`' :: '`' :: 'j' :: 's' :: 'o' :: 'n' :: '\n' :: '{' ::
          (t ++ ['\n', '`', '`', '`']) := by
    simp [show "```json\n".toList = ['`', '`', '`', 'j', 's', 'o', 'n', '\n'] from rfl,
      show "\n```".toList = ['\n', '`', '`', '`'] from rfl]
  rw [hW]
  have h1 :
      jsTrim ('`' :: '`' :: '`' :: 'j' :: 's' :: 'o' :: 'n' :: '\n' :: '{' ::
          (t ++ ['\n', '`', '`', '`'])) =
        '`' :: '`' :: '`' :: 'j' :: 's' :: 'o' :: 'n' :: '\n' :: '{' ::
          (t ++ ['\n', '`', '`', '`']) := by
    unfold jsTrim
    rw [List.dropWhile_cons_of_neg (by decide : ¬ (isJsWs '`' = true))]
    have e :
        ('`' :: '`' :: '`' :: 'j' :: 's' :: 'o' :: 'n' :: '\n' :: '{' ::
            (t ++ ['\n', '`', '`', '`']) : List Char) =
          ('`' :: '`' :: '`' :: 'j' :: 's' :: 'o' :: 'n' :: '\n' :: '{' ::
            (t ++ ['\n', '`', '`'])) ++ ['`'] := by
      simp
    rw [e, dropTrailingWs_append_nonws _ _ (by decide)]
  have h2 :
      startsWithL ('`' :: '`' :: '`' :: 'j' :: 's' :: 'o' :: 'n' :: '\n' :: '{' ::
          (t ++ ['\n', '`', '`', '`'])) fenceJsonTag = true := by
    have e :
        ('`' :: '`' :: '`' :: 'j' :: 's' :: 'o' :: 'n' :: '\n' :: '{' ::
            (t ++ ['\n', '`', '`', '`']) : List Char) =
          fenceJsonTag ++ ('\n' :: '{' :: (t ++ ['\n', '`', '`', '`'])) := by
      simp [fenceJsonTag_eq]
    rw [e]
    exact startsWithL_append_self _ _
  have h3 :
      (('`' :: '`' :: '`' :: 'j' :: 's' :: 'o' :: 'n' :: '\n' :: '{' ::
          (t ++ ['\n', '`', '`', '`']) : List Char)).drop 7 =
        '\n' :: '{' :: (t ++ ['\n', '`', '`', '`']) := rfl
  have h4 :
      List.dropWhile isJsWs ('\n' :: '{' :: (t ++ ['\n', '`', '`', '`'])) =
        '{' :: (t ++ ['\n', '`', '`', '`']) := by
    rw [List.dropWhile_cons_of_pos (by decide : isJsWs '\n' = true)]
    rw [List.dropWhile_cons_of_neg (by decide : ¬ (isJsWs '{' = true))]
  have h5 :
      stripFenceEnd ('{' :: (t ++ ['\n', '`', '`', '`'])) = ('{' :: t) ++ ['\n'] := by
    have e :
        ('{' :: (t ++ ['\n', '`', '`', '`']) : List Char) =
          ('{' :: (t ++ ['\n', '`', '`'])) ++ ['`'] := by simp
    have e2 :
        ('{' :: (t ++ ['\n', '`', '`'])) ++ ['`'] =
          (('{' :: t) ++ ['\n']) ++ fenceTag := by simp [fenceTag_eq]
    have hend : endsWithL ((('{' :: t) ++ ['\n']) ++ fenceTag) fenceTag = true :=
      endsWithL_append_self _ _
    have hlen :
        (((('{' :: t) ++ ['\n']) ++ fenceTag).length - 3) =
          (('{' :: t) ++ ['\n']).length := by
      simp [fenceTag_eq]
    simp only [stripFenceEnd]
    rw [e, dropTrailingWs_append_nonws _ _ (by decide), e2, if_pos hend, hlen,
      List.take_left]
  simp only [cleanAIContent]
  rw [h1, h2]
  simp only [if_true]
  rw [h3]
  rw [h4, h5]

/-- The fence-stripping step leaves a bare JSON object document
unchanged. -/
lemma cleanAIContent_braces (m : List Char) :
    cleanAIContent ('{' :: (m ++ ['}'])) = '{' :: (m ++ ['}']) := by
  have h1 : jsTrim ('{' :: (m ++ ['}'])) = '{' :: (m ++ ['}']) := by
    unfold jsTrim
    rw [List.dropWhile_cons_of_neg (by decide : ¬ (isJsWs '{' = true))]
    have e : ('{' :: (m ++ ['}']) : List Char) = ('{' :: m) ++ ['}'] := by simp
    rw [e, dropTrailingWs_append_nonws _ _ (by decide)]
  have h2 : startsWithL ('{' :: (m ++ ['}'])) fenceJsonTag = false := by
    rw [fenceJsonTag_eq]
    simp [startsWithL]
  have h3 : startsWithL ('{' :: (m ++ ['}'])) fenceTag = false := by
    rw [fenceTag_eq]
    simp [startsWithL]
  simp only [cleanAIContent]
  rw [h1, h2, h3]
  simp

/-- `JSON.parse` ignores a trailing newline after an object document. -/
lemma jsonParse_newline (m : List Char) :
    jsonParse (('{' :: (m ++ ['}'])) ++ ['\n']) = jsonParse ('{' :: (m ++ ['}'])) := by
  have e : ('{' :: (m ++ ['}']) : List Char) = ('{' :: m) ++ ['}'] := by simp
  have h1 : skipJsonWs (('{' :: (m ++ ['}'])) ++ ['\n']) =
      ('{' :: (m ++ ['}'])) ++ ['\n'] := by
    have e2 : (('{' :: (m ++ ['}'])) ++ ['\n'] : List Char) =
        '{' :: ((m ++ ['}']) ++ ['\n']) := by simp
    rw [e2]
    unfold skipJsonWs
    rw [List.dropWhile_cons_of_neg (by decide : ¬ (isJsonWs '{' = true))]
  have h2 : skipJsonWs ('{' :: (m ++ ['}'])) = '{' :: (m ++ ['}']) := by
    unfold skipJsonWs
    rw [List.dropWhile_cons_of_neg (by decide : ¬ (isJsonWs '{' = true))]
  have h3 : dropTrailingJsonWs (('{' :: (m ++ ['}'])) ++ ['\n']) =
      '{' :: (m ++ ['}']) := by
    rw [dropTrailingJsonWs_append_ws _ _ (by decide)]
    rw [e, dropTrailingJsonWs_append_nonws _ _ (by decide)]
  have h4 : dropTrailingJsonWs ('{' :: (m ++ ['}'])) = '{' :: (m ++ ['}']) := by
    rw [e, dropTrailingJsonWs_append_nonws _ _ (by decide)]
  simp only [jsonParse]
  rw [h1, h2, h3, h4]

lemma serializeJson_jobj (fields : List (List Char × Json)) :
    serializeJson (.jobj fields) = '{' :: (serializeMembers fields ++ ['}']) := by
  rw [serializeJson]

/-- C4: for every JSON object value, the extraction step (trim,
code-fence stripping, `JSON.parse`) yields the same parsed object on
the raw text wrapping the object's serialization in a ```json fence as
on the bare serialization. -/
theorem fence_strip_roundtrip (fields : List (List Char × Json)) :
    extractStep ("```json\n".toList ++ serializeJson (.jobj fields) ++ "\n```".toList) =
      extractStep (serializeJson (.jobj fields)) := by
  rw [serializeJson_jobj]
  unfold extractStep
  rw [cleanAIContent_fenced (serializeMembers fields ++ ['}'])]
  rw [cleanAIContent_braces (serializeMembers fields)]
  have e : (('{' :: (serializeMembers fields ++ ['}'])) ++ ['\n'] : List Char) =
      ('{' :: (serializeMembers fields ++ ['}'])) ++ ['\n'] := rfl
  exact jsonParse_newline (serializeMembers fields)

/-! ## Conversation data model (`src/services/messageTypes.ts`) -/

/-- The `sender` union of `ChatMessage`. -/
inductive Sender where
  | user
  | assistant
  | system
deriving DecidableEq, Repr

/-- The `MessageType` union. -/
inductive MessageType where
  | user
  | ai
  | result
  | collected
deriving DecidableEq, Repr

/-- The `MessageSource` union. -/
inductive MessageSource where
  | comment
  | reply
  | post
deriving DecidableEq, Repr

/-- `UserMessage` (user turn payload with optional images). -/
structure UserMessage where
  content : List Char
  images : Option (List (List Char)) := none
  msgSource : Option MessageSource := none
deriving DecidableEq, Repr

/-- `CollectedContent` scraped from a page. -/
structure CollectedContent where
  images : List (List Char)
  title : List Char
  content : List Char
deriving DecidableEq, Repr

/-- `AiGeneratedPostContent`. -/
structure AiGeneratedPostContent where
  title : List Char
  content : List Char
deriving DecidableEq, Repr

/-- `AiGeneratedCommentContent`. -/
structure AiGeneratedCommentContent where
  content : List Char
deriving DecidableEq, Repr

/-- `ChatMessage` (one conversation turn); `timestamp` is opaque. -/
structure ChatMessage where
  id : List Char
  type : MessageType
  messageSource : Option MessageSource := none
  content : Option (List Char) := none
  sender : Sender
  timestamp : Nat := 0
  collectedData : Option CollectedContent := none
  generatedPostData : Option AiGeneratedPostContent := none
  generatedCommentData : Option AiGeneratedCommentContent := none
  userMessage : Option UserMessage := none
deriving DecidableEq, Repr

/-! ## `buildChatMessages` (`src/services/AIService.ts`) -/

/-- `APIMessage.role`. -/
inductive APIRole where
  | system
  | user
  | assistant
deriving DecidableEq, Repr

/-- One element of an `APIMessage.content` array: either an inline
base64 image object `{type: 'image', source: {type: 'base64',
media_type, data}}` or a text object `{type: 'text', text}`. -/
inductive APIContentPart where
  | imageBase64 (mediaType : List Char) (data : List Char)
  | text (t : List Char)
deriving DecidableEq, Repr

/-- The `data` field of an image part, when the part is an image. -/
def APIContentPart.imageData : APIContentPart → Option (List Char)
  | .imageBase64 _ d => some d
  | .text _ => none

/-- `APIMessage`. -/
structure APIMessage where
  role : APIRole
  content : List APIContentPart
deriving DecidableEq, Repr

/-- The inline data-URI handling of `buildChatMessages`: keep the
string as is, but when it starts with `data:` and has a comma, keep
only the part after the first comma. -/
def dataUriToBase64 (img : List Char) : List Char :=
  if startsWithL img "data:".toList then
    match img.findIdx? (fun c => c == ',') with
    | some commaIndex => img.drop (commaIndex + 1)
    | none => img
  else img

/-- The image-object constructor used by `buildChatMessages` for the
Anthropic-style inline base64 representation. -/
def claudeImagePart (img : List Char) : APIContentPart :=
  .imageBase64 "image/jpeg".toList (dataUriToBase64 img)

/-- The per-message content assembly of `buildChatMessages` (the body
of the `forEach` over the windowed messages). -/
def buildMessageContent (msg : ChatMessage) : List APIContentPart :=
  match msg.sender, msg.userMessage with
  | .user, some um =>
      (match um.images with
       | some imgs =>
           if imgs.length > 0 then imgs.map claudeImagePart else []
       | none => []) ++ [APIContentPart.text um.content]
  | _, _ =>
    match msg.type, msg.collectedData with
    | .collected, some cd =>
        (if cd.images.length > 0 then cd.images.map claudeImagePart else []) ++
          [APIContentPart.text ("小红书文案标题: ".toList ++ cd.title),
           APIContentPart.text ("小红书文案内容: ".toList ++ cd.content)]
    | _, _ =>
      match msg.type, msg.generatedPostData with
      | .result, some g =>
          [APIContentPart.text ("AI生成的小红书文案标题: ".toList ++ g.title),
           APIContentPart.text ("AI生成的小红书文案内容: ".toList ++ g.content)]
      | _, _ =>
        match msg.type, msg.generatedCommentData with
        | .result, some g =>
            [APIContentPart.text ("AI生成的小红书评论内容: ".toList ++ g.content)]
        | _, _ => [APIContentPart.text (msg.content.getD [])]

/-- `msg.sender === 'user' || msg.sender === 'assistant'`. -/
def isEligibleSender (msg : ChatMessage) : Bool :=
  msg.sender == Sender.user || msg.sender == Sender.assistant

/-- The predicate of the `data.filter((msg, index) => ...)` call in
`buildChatMessages`: the early `return false` drops middle indices of
long histories, the final line keeps only user/assistant senders. -/
def windowKeep (totalNumMsgs index : Nat) (msg : ChatMessage) : Bool :=
  if totalNumMsgs > 6 ∧ index ≠ 0 ∧ index ≠ 1 ∧ index ≠ totalNumMsgs - 1 ∧
      index ≠ totalNumMsgs - 2 ∧ index ≠ totalNumMsgs - 3 then
    false
  else
    isEligibleSender msg

/-- Model of JS `Array.prototype.filter` with the index argument,
starting from a given index. -/
def filterIdxFrom {α : Type} (p : Nat → α → Bool) : Nat → List α → List α
  | _, [] => []
  | k, x :: xs =>
      if p k x then x :: filterIdxFrom p (k + 1) xs else filterIdxFrom p (k + 1) xs

/-- Model of JS `Array.prototype.filter` with the index argument. -/
def filterWithIndex {α : Type} (p : Nat → α → Bool) (xs : List α) : List α :=
  filterIdxFrom p 0 xs

/-- The `userfulMessages` selection of `buildChatMessages`. -/
def userfulMessages (data : List ChatMessage) : List ChatMessage :=
  filterWithIndex (fun index msg => windowKeep data.length index msg) data

/-- `buildChatMessages` (the `_provider` parameter of the source is
unused and omitted). -/
def buildChatMessages (data : List ChatMessage) : List APIMessage :=
  (userfulMessages data).map fun msg =>
    { role := if msg.sender == Sender.user then APIRole.user else APIRole.assistant
      content := buildMessageContent msg }

/-- The windowing policy as the specification states it: histories of
at most 6 turns unchanged, longer ones reduced to the first 2 plus the
last 3 entries. -/
def windowPolicy (h : List ChatMessage) : List ChatMessage :=
  if h.length ≤ 6 then h else h.take 2 ++ h.drop (h.length - 3)

/-- The composition claimed by the specification: remove ineligible
senders first, then apply the windowing policy. -/
def windowAfterFilter (h : List ChatMessage) : List ChatMessage :=
  windowPolicy (h.filter isEligibleSender)

lemma filterIdxFrom_congr {α : Type} (p : Nat → α → Bool) (q : α → Bool)
    (xs : List α) (k : Nat) (h : ∀ i, i < xs.length → ∀ x, p (k + i) x = q x) :
    filterIdxFrom p k xs = xs.filter q := by
  induction xs generalizing k with
  | nil => simp [filterIdxFrom]
  | cons x xs ih =>
    have h0 : p k x = q x := by simpa using h 0 (by simp) x
    have hrest : ∀ i, i < xs.length → ∀ y, p ((k + 1) + i) y = q y := by
      intro i hi y
      have := h (i + 1) (by simp [Nat.succ_lt_succ hi]) y
      simpa [Nat.add_comm, Nat.add_assoc, Nat.add_left_comm] using this
    cases hq : q x <;>
      simp [filterIdxFrom, h0, hq, List.filter_cons, ih (k + 1) hrest]

lemma filterIdxFrom_all_false {α : Type} (p : Nat → α → Bool) (xs : List α)
    (k : Nat) (h : ∀ i, i < xs.length → ∀ x, p (k + i) x = false) :
    filterIdxFrom p k xs = [] := by
  have := filterIdxFrom_congr p (fun _ => false) xs k h
  simpa using this

lemma filterIdxFrom_append {α : Type} (p : Nat → α → Bool) (xs ys : List α)
    (k : Nat) :
    filterIdxFrom p k (xs ++ ys) =
      filterIdxFrom p k xs ++ filterIdxFrom p (k + xs.length) ys := by
  induction xs generalizing k with
  | nil => simp [filterIdxFrom]
  | cons x xs ih =>
    have harith : k + (xs.length + 1) = (k + 1) + xs.length := by omega
    cases hp : p k x <;>
      simp [filterIdxFrom, hp, ih (k + 1), List.length_cons, harith]

/-- What the source selection really computes: the first-2-plus-last-3
index selection over the original positions, then the sender
eligibility filter. -/
lemma userfulMessages_eq_filter_windowPolicy (data : List ChatMessage) :
    userfulMessages data = (windowPolicy data).filter isEligibleSender := by
  unfold userfulMessages filterWithIndex windowPolicy
  by_cases hn : data.length ≤ 6
  · rw [if_pos hn]
    refine filterIdxFrom_congr _ _ _ _ ?_
    intro i _ x
    unfold windowKeep
    rw [if_neg (by omega)]
  · rw [if_neg hn]
    have hn7 : 7 ≤ data.length := by omega
    set n := data.length with hnd
    have hdecomp :
        data = data.take 2 ++
          ((data.take (n - 3)).drop 2 ++ data.drop (n - 3)) := by
      have h1 : data.take (n - 3) ++ data.drop (n - 3) = data :=
        List.take_append_drop _ _
      have h2 : (data.take (n - 3)).take 2 = data.take 2 := by
        rw [List.take_take]
        congr 1
        omega
      have h3 : data =
          ((data.take (n - 3)).take 2 ++ (data.take (n - 3)).drop 2) ++
            data.drop (n - 3) := by
        rw [List.take_append_drop, List.take_append_drop]
      conv_lhs => rw [h3]
      rw [h2, List.append_assoc]
    have hlenA : (data.take 2).length = 2 := by
      simp [List.length_take]
      omega
    have hlenB : ((data.take (n - 3)).drop 2).length = n - 5 := by
      simp [List.length_drop, List.length_take]
      omega
    have hlenC : (data.drop (n - 3)).length = 3 := by
      simp [List.length_drop]
      omega
    conv_lhs => rw [hdecomp]
    rw [filterIdxFrom_append, filterIdxFrom_append, hlenA, hlenB]
    have hA : filterIdxFrom (fun index msg => windowKeep n index msg) 0 (data.take 2) =
        (data.take 2).filter isEligibleSender := by
      refine filterIdxFrom_congr _ _ _ _ ?_
      intro i hi x
      rw [hlenA] at hi
      unfold windowKeep
      rw [if_neg (by omega)]
    have hB : filterIdxFrom (fun index msg => windowKeep n index msg) 2
        ((data.take (n - 3)).drop 2) = [] := by
      refine filterIdxFrom_all_false _ _ _ ?_
      intro i hi x
      rw [hlenB] at hi
      unfold windowKeep
      rw [if_pos (by omega)]
    have hC : filterIdxFrom (fun index msg => windowKeep n index msg) (2 + (n - 5))
        (data.drop (n - 3)) = (data.drop (n - 3)).filter isEligibleSender := by
      refine filterIdxFrom_congr _ _ _ _ ?_
      intro i hi x
      rw [hlenC] at hi
      unfold windowKeep
      rw [if_neg (by omega)]
    rw [hA, hB, hC, List.filter_append]
    simp

/-- C1: on histories whose senders are all `user` or `assistant`, the
windowing step of `buildChatMessages` keeps a history of length at
most 6 unchanged and in order, and reduces a longer history to exactly
5 entries: the first 2 concatenated with the last 3, in original
order. -/
theorem buildChatMessages_windowing (data : List ChatMessage)
    (h : ∀ m ∈ data, m.sender = Sender.user ∨ m.sender = Sender.assistant) :
    (data.length ≤ 6 → userfulMessages data = data) ∧
    (data.length > 6 →
      (userfulMessages data).length = 5 ∧
      userfulMessages data = data.take 2 ++ data.drop (data.length - 3)) := by
  have helig : ∀ m ∈ data, isEligibleSender m = true := by
    intro m hm
    rcases h m hm with h1 | h1 <;> simp [isEligibleSender, h1]
  constructor
  · intro hle
    rw [userfulMessages_eq_filter_windowPolicy]
    unfold windowPolicy
    rw [if_pos hle]
    exact List.filter_eq_self.mpr helig
  · intro hgt
    have heq : userfulMessages data = data.take 2 ++ data.drop (data.length - 3) := by
      rw [userfulMessages_eq_filter_windowPolicy]
      unfold windowPolicy
      rw [if_neg (by omega)]
      refine List.filter_eq_self.mpr ?_
      intro m hm
      rcases List.mem_append.mp hm with h1 | h1
      · exact helig m (List.take_subset _ _ h1)
      · exact helig m (List.drop_subset _ _ h1)
    refine ⟨?_, heq⟩
    rw [heq]
    simp [List.length_take, List.length_drop]
    omega

/-- A 7-turn history alternating user and assistant senders. -/
def sampleHistory7 : List ChatMessage :=
  [{ id := "m0".toList, type := .collected, sender := .user },
   { id := "m1".toList, type := .result, sender := .assistant },
   { id := "m2".toList, type := .user, sender := .user },
   { id := "m3".toList, type := .ai, sender := .assistant },
   { id := "m4".toList, type := .user, sender := .user },
   { id := "m5".toList, type := .ai, sender := .assistant },
   { id := "m6".toList, type := .user, sender := .user }]

/-- Witness for C1 at a concrete 7-turn history. -/
theorem buildChatMessages_windowing_witness :
    (userfulMessages sampleHistory7).length = 5 ∧
    userfulMessages sampleHistory7 =
      sampleHistory7.take 2 ++ sampleHistory7.drop (sampleHistory7.length - 3) :=
  (buildChatMessages_windowing sampleHistory7 (by decide)).2 (by decide)

/-- A 7-turn history whose first entry has a `system` sender. -/
def mixedHistory7 : List ChatMessage :=
  [{ id := "s0".toList, type := .ai, sender := .system },
   { id := "m1".toList, type := .user, sender := .user },
   { id := "m2".toList, type := .ai, sender := .assistant },
   { id := "m3".toList, type := .user, sender := .user },
   { id := "m4".toList, type := .ai, sender := .assistant },
   { id := "m5".toList, type := .user, sender := .user },
   { id := "m6".toList, type := .ai, sender := .assistant }]

/-- C7 counterexample: on a 7-turn history whose first entry has a
`system` sender, the source selection (4 entries) differs from
windowing the filtered history (6 entries). -/
theorem window_after_filter_counterexample :
    userfulMessages mixedHistory7 ≠ windowAfterFilter mixedHistory7 := by
  decide

/-- C7 amended: ineligible senders are removed in the same filter pass,
but the first-2-plus-last-3 selection is computed over the original
positions of the unfiltered history: the selection equals the
eligibility filter applied to the index window of the whole history,
not the window of the filtered history. -/
theorem userfulMessages_windows_before_filter (data : List ChatMessage) :
    userfulMessages data = (windowPolicy data).filter isEligibleSender :=
  userfulMessages_eq_filter_windowPolicy data

/-- C8: the Anthropic-style image embedding keeps exactly the substring
after the first comma of a `data:` URI, and keeps any non-`data:`
string unchanged. -/
lemma findIdx_comma_append (a b : List Char) (h : ',' ∉ a) :
    List.findIdx? (fun c => c == ',') (a ++ ',' :: b) = some a.length := by
  induction a with
  | nil => simp [List.findIdx?_cons]
  | cons x a ih =>
    simp only [List.mem_cons, not_or] at h
    have hx : (x == ',') = false := beq_eq_false_iff_ne.mpr (Ne.symm h.1)
    simp [List.findIdx?_cons, hx, ih h.2]

/-- C8: the Anthropic-style image embedding keeps exactly the substring
after the first comma of a `data:` URI, and keeps any non-`data:`
string unchanged. -/
theorem claude_image_base64_strip (img : List Char) :
    (∀ a b, img = a ++ ',' :: b → ',' ∉ a →
      startsWithL img "data:".toList = true →
      (claudeImagePart img).imageData = some b) ∧
    (startsWithL img "data:".toList = false →
      (claudeImagePart img).imageData = some img) := by
  constructor
  · rintro a b rfl hna hpre
    have hidx := findIdx_comma_append a b hna
    have hdrop : List.drop (a.length + 1) (a ++ ',' :: b) = b := by
      have e : (a ++ ',' :: b : List Char) = (a ++ [',']) ++ b := by simp
      rw [e]
      exact List.drop_left' (by simp)
    rw [show "data:".toList = ['d', 'a', 't', 'a', ':'] from rfl] at hpre
    simp [claudeImagePart, APIContentPart.imageData, dataUriToBase64, hpre, hidx, hdrop]
  · intro hpre
    rw [show "data:".toList = ['d', 'a', 't', 'a', ':'] from rfl] at hpre
    simp [claudeImagePart, APIContentPart.imageData, dataUriToBase64, hpre]

/-- Witness for C8 at a concrete data URI and a concrete plain URL. -/
theorem claude_image_base64_strip_witness :
    (claudeImagePart "data:image/jpeg;base64,QUJD".toList).imageData =
      some "QUJD".toList ∧
    (claudeImagePart "https://example.com/a.jpg".toList).imageData =
      some "https://example.com/a.jpg".toList :=
  ⟨(claude_image_base64_strip "data:image/jpeg;base64,QUJD".toList).1
      "data:image/jpeg;base64".toList "QUJD".toList (by decide) (by decide) (by decide),
   (claude_image_base64_strip "https://example.com/a.jpg".toList).2 (by decide)⟩

/-! ## ResponseValidator: `validateContentResponse` and the chat-side
diagnostics of `requestAIResponse` -/

def contentKey : List Char := "content".toList

def titleKey : List Char := "title".toList

/-- JS `typeof v === 'object'` on the `Json` model: objects, arrays and
`null` all have typeof `'object'`. -/
def jsTypeofIsObject : Json → Bool
  | .jobj _ => true
  | .jarr _ => true
  | .null => true
  | _ => false

def isJsNull : Json → Bool
  | .null => true
  | _ => false

/-- JS property access `v[key]`: `none` models `undefined`; on
duplicate keys the later binding wins, as after `JSON.parse`. -/
def getProp (v : Json) (key : List Char) : Option Json :=
  match v with
  | .jobj fs => (fs.reverse.find? (fun kv => kv.1 == key)).map (fun kv => kv.2)
  | _ => none

/-- `validateContentResponse` (`src/services/AIService.ts`): the
response must be a non-null object whose `content` is a string of at
most 10000 characters; in `post` mode `title` must moreover be a
string of at most 100 characters; in other modes `title` is ignored. -/
def validateContentResponse (response : Json)
    (msgSource : MessageSource := .post) : Bool :=
  if !jsTypeofIsObject response || isJsNull response then false
  else
    match getProp response contentKey with
    | some (.jstr s) =>
        if s.length > 10000 then false
        else if msgSource = MessageSource.post then
          match getProp response titleKey with
          | some (.jstr t) => t.length ≤ 100
          | _ => false
        else true
    | _ => false

/-- JS truthiness of a possibly-undefined value. -/
def jsTruthy : Option Json → Bool
  | none => false
  | some .null => false
  | some (.jbool b) => b
  | some (.jnum n) => n != 0
  | some (.jstr s) => !s.isEmpty
  | some (.jarr _) => true
  | some (.jobj _) => true

/-- JS `v.length`, defined for strings and arrays, otherwise undefined. -/
def jsLength : Option Json → Option Nat
  | some (.jstr s) => some s.length
  | some (.jarr xs) => some xs.length
  | _ => none

/-- JS `x > n` where `x` may be undefined: comparisons against
undefined are false. -/
def jsGtNat : Option Nat → Nat → Bool
  | none, _ => false
  | some k, n => decide (n < k)

/-- The diagnostics the validation-failure branch of
`requestAIResponse` (`src/components/ChatInterface.tsx`) collects:
missing title, missing content, title over 20 characters, content
over 1000 characters. -/
def buildValidationErrors (parsedResponse : Json) : List (List Char) :=
  let title := getProp parsedResponse titleKey
  let content := getProp parsedResponse contentKey
  (if !jsTruthy title then ["缺少title字段".toList] else []) ++
    (if !jsTruthy content then ["缺少content字段".toList] else []) ++
    (if jsTruthy title && jsGtNat (jsLength title) 20 then
      ["标题超过20字符限制".toList] else []) ++
    (if jsTruthy content && jsGtNat (jsLength content) 1000 then
      ["内容超过1000字符限制".toList] else [])

/-- `comment`-mode validation of an object with a string `content`
reduces to the 10000-character cutoff. -/
lemma validateComment_eq (fields : List (List Char × Json)) (s : List Char)
    (hc : getProp (.jobj fields) contentKey = some (.jstr s)) :
    validateContentResponse (.jobj fields) .comment = decide (s.length ≤ 10000) := by
  by_cases h : s.length ≤ 10000
  · have hlt : decide (10000 < s.length) = false := decide_eq_false (by omega)
    simp [validateContentResponse, jsTypeofIsObject, isJsNull, hc, hlt, decide_eq_true h]
  · have hlt : decide (10000 < s.length) = true := decide_eq_true (by omega)
    simp [validateContentResponse, jsTypeofIsObject, isJsNull, hc, hlt, decide_eq_false h]

/-- `post`-mode validation of an object with string `content` and
string `title` reduces to the two length cutoffs. -/
lemma validatePost_eq (fields : List (List Char × Json)) (s t : List Char)
    (hc : getProp (.jobj fields) contentKey = some (.jstr s))
    (ht : getProp (.jobj fields) titleKey = some (.jstr t)) :
    validateContentResponse (.jobj fields) .post =
      (decide (s.length ≤ 10000) && decide (t.length ≤ 100)) := by
  by_cases h : s.length ≤ 10000
  · have hlt : decide (10000 < s.length) = false := decide_eq_false (by omega)
    simp [validateContentResponse, jsTypeofIsObject, isJsNull, hc, ht, hlt, decide_eq_true h]
  · have hlt : decide (10000 < s.length) = true := decide_eq_true (by omega)
    simp [validateContentResponse, jsTypeofIsObject, isJsNull, hc, ht, hlt, decide_eq_false h]

/-- A candidate whose `content` string has 10001 characters. -/
def overlongCommentCandidate : Json :=
  .jobj [(contentKey, .jstr (List.replicate 10001 'x'))]

/-- C2 counterexample: a candidate object with a string `content`
field whose validation in `comment` mode nevertheless fails, because
the content exceeds the validator's 10000-character cutoff. -/
theorem comment_mode_overlong_counterexample :
    validateContentResponse overlongCommentCandidate .comment = false := by
  have he : overlongCommentCandidate =
      Json.jobj [(contentKey, .jstr (List.replicate 10001 'x'))] := rfl
  have h := validateComment_eq [(contentKey, .jstr (List.replicate 10001 'x'))]
      (List.replicate 10001 'x') rfl
  rw [he, h]
  exact decide_eq_false (by rw [List.length_replicate]; omega)

/-- C2 amended: for every candidate object whose `content` field is a
string of at most 10000 characters and which has no `title` field,
validation succeeds in `comment` mode, fails in `post` mode, and the
chat-side diagnostics cite the missing title. -/
theorem title_required_only_in_post_mode (fields : List (List Char × Json))
    (s : List Char)
    (hc : getProp (.jobj fields) contentKey = some (.jstr s))
    (hlen : s.length ≤ 10000)
    (ht : getProp (.jobj fields) titleKey = none) :
    validateContentResponse (.jobj fields) .comment = true ∧
    validateContentResponse (.jobj fields) .post = false ∧
    "缺少title字段".toList ∈ buildValidationErrors (.jobj fields) := by
  have hlt : decide (10000 < s.length) = false := decide_eq_false (by omega)
  refine ⟨?_, ?_, ?_⟩
  · rw [validateComment_eq fields s hc]
    exact decide_eq_true hlen
  · simp [validateContentResponse, jsTypeofIsObject, isJsNull, hc, ht, hlt]
  · simp [buildValidationErrors, ht, jsTruthy]

/-- Witness for the amended C2 at the concrete candidate
`{content: "x"}`. -/
theorem title_required_only_in_post_mode_witness :
    validateContentResponse (Json.jobj [(contentKey, Json.jstr "x".toList)]) .comment =
        true ∧
    validateContentResponse (Json.jobj [(contentKey, Json.jstr "x".toList)]) .post =
        false ∧
    "缺少title字段".toList ∈
      buildValidationErrors (Json.jobj [(contentKey, Json.jstr "x".toList)]) :=
  title_required_only_in_post_mode _ _ rfl (by decide) rfl

/-- A `post` candidate whose `content` has 1001 characters and whose
`title` is fine. -/
def overlongContentPostCandidate : Json :=
  .jobj [(titleKey, .jstr "t".toList), (contentKey, .jstr (List.replicate 1001 'a'))]

/-- C3 counterexample: a `content` string of 1001 characters (the
documented 1000-character ceiling plus one) passes validation, because
the validator's hard cutoff is 10000 characters, not 1000. -/
theorem content_ceiling_counterexample :
    validateContentResponse overlongContentPostCandidate .post = true := by
  have he : overlongContentPostCandidate =
      Json.jobj [(titleKey, .jstr "t".toList),
        (contentKey, .jstr (List.replicate 1001 'a'))] := rfl
  have h := validatePost_eq
      [(titleKey, .jstr "t".toList), (contentKey, .jstr (List.replicate 1001 'a'))]
      (List.replicate 1001 'a') "t".toList rfl rfl
  rw [he, h,
    decide_eq_true (show (List.replicate 1001 'a').length ≤ 10000 by
      rw [List.length_replicate]; omega),
    decide_eq_true (show ("t".toList).length ≤ 100 by decide)]
  rfl

/-- C3 amended: for a candidate object with a string `content` field,
`comment`-mode validation succeeds exactly when the content has at
most 10000 characters (so 10000 passes and 10001 fails; emptiness is
not checked), and whenever the content is longer than 10000 the
chat-side diagnostics name the `content` field. -/
theorem content_length_ceiling (fields : List (List Char × Json)) (s : List Char)
    (hc : getProp (.jobj fields) contentKey = some (.jstr s)) :
    validateContentResponse (.jobj fields) .comment = decide (s.length ≤ 10000) ∧
    (10000 < s.length →
      "内容超过1000字符限制".toList ∈ buildValidationErrors (.jobj fields)) := by
  refine ⟨validateComment_eq fields s hc, ?_⟩
  intro hgt
  have hne : s.isEmpty = false := by
    cases s with
    | nil => simp at hgt
    | cons c cs => rfl
  have htr : jsTruthy (getProp (Json.jobj fields) contentKey) = true := by
    rw [hc]
    simp [jsTruthy, hne]
  have hlen : jsGtNat (jsLength (getProp (Json.jobj fields) contentKey)) 1000 = true := by
    rw [hc]
    simp only [jsLength, jsGtNat]
    exact decide_eq_true (by omega)
  simp [buildValidationErrors, htr, hlen]

/-- Witness for the amended C3: the 10000-character boundary passes in
`comment` mode, and a 10001-character content yields the
content-length diagnostic. -/
theorem content_length_ceiling_witness :
    validateContentResponse
        (Json.jobj [(contentKey, Json.jstr (List.replicate 10000 'a'))]) .comment =
      decide ((List.replicate 10000 'a').length ≤ 10000) ∧
    "内容超过1000字符限制".toList ∈
      buildValidationErrors (Json.jobj [(contentKey, Json.jstr (List.replicate 10001 'a'))]) :=
  ⟨(content_length_ceiling [(contentKey, Json.jstr (List.replicate 10000 'a'))] _ rfl).1,
   (content_length_ceiling [(contentKey, Json.jstr (List.replicate 10001 'a'))] _ rfl).2
     (by rw [List.length_replicate]; omega)⟩

/-- C10: in `comment` mode, a candidate object whose `content` is a
string of at most 10000 characters validates successfully no matter
what the `title` field holds: absent, non-string, or arbitrarily long
string values are all accepted unchecked. -/
theorem comment_mode_ignores_title (fields : List (List Char × Json)) (s : List Char)
    (hc : getProp (.jobj fields) contentKey = some (.jstr s))
    (hlen : s.length ≤ 10000) :
    validateContentResponse (.jobj fields) .comment = true := by
  have hlt : decide (10000 < s.length) = false := decide_eq_false (by omega)
  simp [validateContentResponse, jsTypeofIsObject, isJsNull, hc, hlt]

/-- Witness for C10 at a candidate whose `title` is a 150-character
string (far over every documented title ceiling). -/
theorem comment_mode_ignores_title_witness :
    validateContentResponse
        (Json.jobj [(titleKey, Json.jstr (List.replicate 150 'T')),
          (contentKey, Json.jstr "ok".toList)]) .comment = true :=
  comment_mode_ignores_title _ _ rfl (by decide)

/-! ## AIService: error handling, configuration guard, provider
dispatch (`src/services/AIService.ts` and the part_008 rewrite) -/

/-- A JS exception value: either an `Error` carrying a message, or any
other thrown value. -/
inductive JSError where
  | err (message : List Char)
  | other
deriving DecidableEq, Repr

/-- The provider-failure taxonomy of the specification. -/
inductive AIErrorKind where
  | authInvalid
  | rateLimited
  | permissionDenied
  | quotaExceeded
  | transportFailure
deriving DecidableEq, Repr

/-- `handleAPIError` (identical in both versions of the service): the
message of the `Error` the method re-throws. -/
def handleAPIError (error : JSError) (provider : List Char) : List Char :=
  match error with
  | .err m =>
      if containsSub m "401".toList then provider ++ " API密钥无效，请检查您的配置".toList
      else if containsSub m "429".toList then provider ++ " API请求频率过高，请稍后再试".toList
      else if containsSub m "403".toList then provider ++ " API权限不足，请检查您的账户状态".toList
      else if containsSub m "quota".toList then provider ++ " API配额已用完，请检查您的账户额度".toList
      else provider ++ " 请求失败: ".toList ++ m
  | .other => provider ++ " 请求失败: Unknown error".toList

/-- The classification chain exactly as the claim states it: 401, then
429, then quota, everything else transport (no 403 step). -/
def classifyPerClaim (m : List Char) : AIErrorKind :=
  if containsSub m "401".toList then .authInvalid
  else if containsSub m "429".toList then .rateLimited
  else if containsSub m "quota".toList then .quotaExceeded
  else .transportFailure

/-- The classification chain with the 403 step the source checks
between 429 and quota. -/
def classifyAPIErrorMessage (m : List Char) : AIErrorKind :=
  if containsSub m "401".toList then .authInvalid
  else if containsSub m "429".toList then .rateLimited
  else if containsSub m "403".toList then .permissionDenied
  else if containsSub m "quota".toList then .quotaExceeded
  else .transportFailure

/-- The thrown message template attached to each classification. -/
def messageForKind (provider m : List Char) : AIErrorKind → List Char
  | .authInvalid => provider ++ " API密钥无效，请检查您的配置".toList
  | .rateLimited => provider ++ " API请求频率过高，请稍后再试".toList
  | .permissionDenied => provider ++ " API权限不足，请检查您的账户状态".toList
  | .quotaExceeded => provider ++ " API配额已用完，请检查您的账户额度".toList
  | .transportFailure => provider ++ " 请求失败: ".toList ++ m

/-- C5 counterexample: a message containing both `403` and `quota` is
not classified `QuotaExceeded` as the claimed chain would have it; the
source checks `403` first and throws the permission message. -/
theorem error_classification_counterexample :
    handleAPIError (.err "403 quota".toList) "Claude".toList ≠
      messageForKind "Claude".toList "403 quota".toList
        (classifyPerClaim "403 quota".toList) := by
  decide

/-- C5 amended: the thrown message of `handleAPIError` on an `Error`
follows the substring chain 401 to AuthInvalid, then 429 to
RateLimited, then 403 to PermissionDenied, then quota to
QuotaExceeded, and everything unmatched to TransportFailure with a
provider-qualified message. -/
theorem handleAPIError_classification (provider m : List Char) :
    handleAPIError (.err m) provider =
      messageForKind provider m (classifyAPIErrorMessage m) := by
  by_cases h1 : containsSub m ['4', '0', '1'] = true
  · simp [handleAPIError, classifyAPIErrorMessage, messageForKind, h1]
  · by_cases h2 : containsSub m ['4', '2', '9'] = true
    · simp [handleAPIError, classifyAPIErrorMessage, messageForKind, h1, h2]
    · by_cases h3 : containsSub m ['4', '0', '3'] = true
      · simp [handleAPIError, classifyAPIErrorMessage, messageForKind, h1, h2, h3]
      · by_cases h4 : containsSub m ['q', 'u', 'o', 't', 'a'] = true
        · simp [handleAPIError, classifyAPIErrorMessage, messageForKind, h1, h2, h3, h4]
        · simp [handleAPIError, classifyAPIErrorMessage, messageForKind, h1, h2, h3, h4]

/-- `AIConfig`. -/
structure AIConfig where
  provider : List Char
  apiKey : List Char
  model : List Char
  baseUrl : Option (List Char) := none
deriving DecidableEq, Repr

/-- The mutable client fields of `AIService`: whether the OpenAI and
Anthropic SDK clients are initialized, plus the stored config. -/
structure AIServiceState where
  openai : Bool
  anthropic : Bool
  config : AIConfig
deriving DecidableEq, Repr

/-- `initializeClient` (`src/services/AIService.ts`): an Anthropic
client for provider `claude`, otherwise an OpenAI client. -/
def initializeClient (st : AIServiceState) : AIServiceState :=
  if st.config.provider = "claude".toList then { st with anthropic := true }
  else { st with openai := true }

/-- The `AIService` constructor (`src/services/AIService.ts`): store
the config; initialize a client only for a truthy (non-empty) api
key. -/
def AIServiceInit (config : AIConfig) : AIServiceState :=
  let st : AIServiceState := { openai := false, anthropic := false, config := config }
  if config.apiKey ≠ [] then initializeClient st else st

/-- `AIResponse` (usage statistics omitted). -/
structure AIResponse where
  content : List Char
deriving DecidableEq, Repr

/-- One content block of an Anthropic messages response. -/
inductive ClaudeBlock where
  | toolUse (input : Json)
  | text (t : List Char)
  | otherBlock

/-- The Anthropic request assembled by `claudeChatCompletion`. -/
structure ClaudeRequest where
  system : List Char
  messages : List APIMessage
  toolChoiceName : List Char

/-- An OpenAI chat-completions message and choice. -/
structure OpenAIChoiceMessage where
  content : Option (List Char)

structure OpenAIChoice where
  message : Option OpenAIChoiceMessage

structure OpenAIResponse where
  choices : List OpenAIChoice

/-- The OpenAI chat-completions request assembled by
`openaiChatCompletion`. -/
structure OpenAIRequest where
  model : List Char
  messages : List APIMessage
  usesJsonSchema : Bool
  schemaName : List Char

/-- One output item of an OpenAI Responses-API call (part_008). -/
inductive ResponsesOutputItem where
  | functionCall (name : List Char) (argumentsText : List Char)
  | otherItem

/-- The Responses-API request assembled by the part_008 chatgpt
branch. -/
structure ResponsesRequest where
  model : List Char
  input : List APIMessage
  instructions : List Char
  toolChoiceName : List Char

/-- The Qwen chat-completions request assembled by the part_008 qwen
branch. -/
structure QwenRequest where
  model : List Char
  messages : List APIMessage
  responseFormatJsonObject : Bool

/-- The network, as the adapters see it: each provider call either
returns the provider's raw response or throws. -/
structure NetworkOracle where
  claude : ClaudeRequest → Except JSError (List ClaudeBlock)
  openaiCreate : OpenAIRequest → Except JSError OpenAIResponse
  responsesCreate : ResponsesRequest → Except JSError (List ResponsesOutputItem)
  qwen : QwenRequest → Except JSError OpenAIResponse

/-- The in-function system prompt of `claudeChatCompletion`
(`src/services/AIService.ts`; the post and comment variants carry the
same text there). -/
def postSystemPrompt : List Char :=
  ("你是一个专业的小红书内容创作助手。你的任务是帮助用户创作吸引人的标题和内容。\n\n你的能力包括:\n1. 根据图片和内容生成吸引人的标题\n2. 润色和优化现有文本\n3. 提供创作建议和灵感\n4. 符合小红书平台特色的内容创作\n\n请使用提供的工具来生成结构化的内容。确保：\n- 标题要吸引人、有点击欲望，符合小红书风格，不超过20个字符\n- 内容要生动有趣，可包含表情符号、话题标签等，不超过1000个字符").toList

def commentSystemPrompt : List Char := postSystemPrompt

/-- The response handling of `claudeChatCompletion` after the network
call: prefer a `tool_use` block (validated, then re-serialized),
otherwise fall back to a text block. -/
def processClaudeBlocks (blocks : List ClaudeBlock) (msgSource : MessageSource) :
    Except JSError AIResponse :=
  if blocks.isEmpty then .error (.err "Invalid response from Claude API".toList)
  else
    match blocks.find? (fun b => match b with | .toolUse _ => true | _ => false) with
    | some (.toolUse input) =>
        if validateContentResponse input msgSource then
          .ok { content := serializeJson input }
        else .error (.err "Tool input validation failed".toList)
    | _ =>
        match blocks.find? (fun b => match b with | .text _ => true | _ => false) with
        | some (.text t) => .ok { content := t }
        | _ => .error (.err "No text or tool_use content in Claude response".toList)

/-- `claudeChatCompletion` (`src/services/AIService.ts`), with the
second component recording whether a network call was attempted. -/
def claudeChatCompletion (st : AIServiceState) (messages : List APIMessage)
    (msgSource : MessageSource) (net : NetworkOracle) :
    Except (List Char) AIResponse × Bool :=
  if st.anthropic = false then
    (.error "Claude client not initialized. Please check your API key.".toList, false)
  else
    let conversationMessages := messages.filter (fun m => m.role != APIRole.system)
    let req : ClaudeRequest :=
      { system := if msgSource = .comment then commentSystemPrompt else postSystemPrompt
        messages := conversationMessages
        toolChoiceName :=
          if msgSource = .comment then "generate_xhs_comment".toList
          else "generate_xhs_content".toList }
    match net.claude req with
    | .error e => (.error (handleAPIError e "Claude".toList), true)
    | .ok blocks =>
        ((processClaudeBlocks blocks msgSource).mapError
          (fun e => handleAPIError e "Claude".toList), true)

/-- `openaiChatCompletion` (`src/services/AIService.ts`). -/
def openaiChatCompletion (st : AIServiceState) (messages : List APIMessage)
    (msgSource : MessageSource) (net : NetworkOracle) :
    Except (List Char) AIResponse × Bool :=
  if st.openai = false then
    (.error "OpenAI client not initialized. Please check your API key.".toList, false)
  else
    let modelSupportsStructured :=
      ["gpt-4o".toList, "gpt-4o-mini".toList, "gpt-4-turbo".toList].any
        (fun m => containsSub st.config.model m)
    let req : OpenAIRequest :=
      { model := if st.config.model = [] then "gpt-3.5-turbo".toList else st.config.model
        messages := messages
        usesJsonSchema := modelSupportsStructured
        schemaName :=
          if msgSource = .post then "xhs_content".toList else "xhs_comment".toList }
    match net.openaiCreate req with
    | .error e => (.error (handleAPIError e "OpenAI".toList), true)
    | .ok resp =>
        (match resp.choices.head? with
         | none =>
             .error (handleAPIError (.err "Invalid response from OpenAI API".toList)
               "OpenAI".toList)
         | some choice =>
             match choice.message with
             | none =>
                 .error (handleAPIError (.err "Invalid response from OpenAI API".toList)
                   "OpenAI".toList)
             | some msg => .ok { content := msg.content.getD [] }, true)

/-- `chatCompletion` (`src/services/AIService.ts`): dispatch on the
configured provider, `claude` against Anthropic, everything else
against OpenAI. -/
def chatCompletion (st : AIServiceState) (messages : List APIMessage)
    (msgSource : MessageSource) (net : NetworkOracle) :
    Except (List Char) AIResponse × Bool :=
  if st.config.provider = "claude".toList then
    claudeChatCompletion st messages msgSource net
  else
    openaiChatCompletion st messages msgSource net

/-- C6: constructing the service with an empty api key leaves both
clients uninitialized, and every subsequent `chatCompletion` call, for
every history, mode and network behavior, fails immediately with the
not-initialized error and never attempts a network call. -/
theorem chatCompletion_fails_fast_without_key (config : AIConfig)
    (messages : List APIMessage) (msgSource : MessageSource) (net : NetworkOracle)
    (h : config.apiKey = []) :
    chatCompletion (AIServiceInit config) messages msgSource net =
      (.error (if config.provider = "claude".toList then
          "Claude client not initialized. Please check your API key.".toList
        else
          "OpenAI client not initialized. Please check your API key.".toList),
       false) := by
  have hinit : AIServiceInit config =
      { openai := false, anthropic := false, config := config } := by
    simp [AIServiceInit, h]
  rw [hinit]
  by_cases hp : config.provider = ['c', 'l', 'a', 'u', 'd', 'e']
  · simp [chatCompletion, claudeChatCompletion, hp]
  · simp [chatCompletion, openaiChatCompletion, hp]

/-- A network model in which every provider call throws. -/
def nullOracle : NetworkOracle :=
  { claude := fun _ => .error .other
    openaiCreate := fun _ => .error .other
    responsesCreate := fun _ => .error .other
    qwen := fun _ => .error .other }

/-- A claude configuration with an empty api key. -/
def emptyKeyClaudeConfig : AIConfig :=
  { provider := "claude".toList
    apiKey := []
    model := "claude-sonnet-4-20250514".toList }

/-- Witness for C6 at a concrete unconfigured claude service. -/
theorem chatCompletion_fails_fast_without_key_witness :
    chatCompletion (AIServiceInit emptyKeyClaudeConfig) [] .post nullOracle =
      (.error "Claude client not initialized. Please check your API key.".toList,
       false) := by
  have h := chatCompletion_fails_fast_without_key emptyKeyClaudeConfig
    [] .post nullOracle rfl
  simpa [emptyKeyClaudeConfig] using h

/-! ## The part_008 rewrite of the service: three named providers and
the Qwen chat-completions branch -/

/-- `initializeClient` of the part_008 service: `claude` gets an
Anthropic client, `chatgpt` and `qwen` get OpenAI clients (the latter
against the dashscope compatible-mode endpoint); any other provider
initializes nothing. -/
def initializeClientV2 (st : AIServiceState) : AIServiceState :=
  if st.config.provider = "claude".toList then { st with anthropic := true }
  else if st.config.provider = "chatgpt".toList then { st with openai := true }
  else if st.config.provider = "qwen".toList then { st with openai := true }
  else st

/-- The part_008 constructor: an empty api key throws instead of
constructing. -/
def AIServiceInitV2 (config : AIConfig) : Except (List Char) AIServiceState :=
  if config.apiKey ≠ [] then
    .ok (initializeClientV2 { openai := false, anthropic := false, config := config })
  else
    .error "请设置⚙️您的AI大模型和api key".toList

/-- The module-level post prompt of part_008. -/
def postSystemPromptV2 : List Char :=
  ("你是一个专业的小红书内容创作专家，擅长创作吸引人的标题和内容。\n\n请根据用户提供的图片和内容以及要求，生成符合小红书风格的标题和正文内容。\n\n要求：\n1. 标题要吸引人，有点击欲望，不超过20个字符\n2. 内容要有价值，可读性强，符合小红书用户喜好\n3. 适当使用表情符号和话题标签（#标签#）\n4. 语言风格要亲切自然，贴近用户").toList

/-- The module-level comment prompt of part_008. -/
def commentSystemPromptV2 : List Char :=
  ("你是一个专业的小红书评论帮手，擅长生成有趣、有价值的评论内容。\n\n请根据用户提供的笔记图片和内容以及要求，生成一条简短的评论。\n\n要求：\n1. 评论要真诚自然，符合小红书社区氛围\n2. 适当使用表情符号，让评论更生动\n3. 字数控制在100字以内\n").toList

/-- The in-function post instructions of `qwenChatCompletion`. -/
def qwenPostInstructions : List Char :=
  ("你是一个专业的小红书内容创作专家。请根据用户提供的信息和图片，生成符合小红书风格的标题和内容。\n\n输出要求：严格按照JSON格式，包含title和content两个字符串字段。\n\n创作规则：\n1. 标题：吸引人、有点击欲望，不超过20个字符\n2. 内容：真实有用、亲切自然，适当使用表情符号和话题标签\n3. 语言风格：符合小红书用户喜好").toList

/-- The in-function comment instructions of `qwenChatCompletion`. -/
def qwenCommentInstructions : List Char :=
  ("你是一个专业的小红书评论帮手。请根据用户提供的笔记内容和图片，生成一条简短的、有趣的评论。\n\n输出要求：严格按照JSON格式，包含content一个字符串字段。\n\n评论规则：\n1. 语气：真诚自然、友好亲切，符合小红书社区氛围\n2. 长度：控制在100字以内，适当使用表情符号").toList

/-- The synthetic leading user message `qwenChatCompletion` pushes onto
the front of the caller's array with `messages.unshift(...)`. -/
def qwenInstructionMessage (msgSource : MessageSource) : APIMessage :=
  { role := .user
    content := [APIContentPart.text
      (if msgSource = .comment then qwenCommentInstructions else qwenPostInstructions)] }

/-- `qwenChatCompletion` (part_008): the second component is the
caller-visible content of the `messages` array after the call, since
`unshift` mutates the array in place before the network call. -/
def qwenChatCompletion (st : AIServiceState) (messages : List APIMessage)
    (msgSource : MessageSource) (net : NetworkOracle) :
    (Except (List Char) AIResponse × Bool) × List APIMessage :=
  if st.openai = false then
    ((.error "OpenAI client not initialized. Please check your API key.".toList, false),
     messages)
  else
    let messages2 := qwenInstructionMessage msgSource :: messages
    let req : QwenRequest :=
      { model := "qwen-vl-plus".toList
        messages := messages2
        responseFormatJsonObject := true }
    let result : Except (List Char) AIResponse × Bool :=
      match net.qwen req with
      | .error e => (.error (handleAPIError e "OpenAI".toList), true)
      | .ok resp =>
          match resp.choices.head? with
          | none =>
              (.error (handleAPIError
                  (.err "Cannot read properties of undefined".toList) "OpenAI".toList),
               true)
          | some choice =>
              match choice.message with
              | none =>
                  (.error (handleAPIError
                      (.err "Cannot read properties of undefined".toList) "OpenAI".toList),
                   true)
              | some msg =>
                  match msg.content with
                  | some s =>
                      if s ≠ [] then (.ok { content := s }, true)
                      else (.ok { content := [] }, true)
                  | none => (.ok { content := [] }, true)
    (result, messages2)

/-- The chatgpt (Responses API) branch of part_008. -/
def chatgptChatCompletionV2 (st : AIServiceState) (messages : List APIMessage)
    (msgSource : MessageSource) (net : NetworkOracle) :
    (Except (List Char) AIResponse × Bool) × List APIMessage :=
  if st.openai = false then
    ((.error "OpenAI client not initialized. Please check your API key.".toList, false),
     messages)
  else
    let targetToolName :=
      if msgSource = .comment then "generate_xhs_comment".toList
      else "generate_xhs_content".toList
    let req : ResponsesRequest :=
      { model := "gpt-5".toList
        input := messages
        instructions :=
          if msgSource = .post then postSystemPromptV2 else commentSystemPromptV2
        toolChoiceName := targetToolName }
    match net.responsesCreate req with
    | .error e => ((.error (handleAPIError e "OpenAI".toList), true), messages)
    | .ok output =>
        (if output.isEmpty then
          (.error (handleAPIError (.err "Invalid response from chatgpt API".toList)
            "OpenAI".toList), true)
        else
          match output.find?
              (fun i => match i with | .functionCall _ _ => true | _ => false) with
          | some (.functionCall nm args) =>
              if nm = targetToolName ∧ args ≠ [] then
                let toolInput := (jsonParse args).getD (.jobj [])
                if validateContentResponse toolInput msgSource then
                  (.ok { content := serializeJson toolInput }, true)
                else
                  (.error (handleAPIError (.err "Tool input validation failed".toList)
                    "OpenAI".toList), true)
              else (.ok { content := [] }, true)
          | _ => (.ok { content := [] }, true), messages)

/-- `chatCompletion` of part_008: named dispatch over `claude`,
`chatgpt` and `qwen`, rejecting other providers; the second component
is the caller-visible content of the `messages` array after the call.
The claude branch coincides with the `src/services/AIService.ts` one
up to prompt text and is reused; it reads the array without writing
it. -/
def chatCompletionV2 (st : AIServiceState) (messages : List APIMessage)
    (msgSource : MessageSource) (net : NetworkOracle) :
    (Except (List Char) AIResponse × Bool) × List APIMessage :=
  if st.config.provider = "claude".toList then
    (claudeChatCompletion st messages msgSource net, messages)
  else if st.config.provider = "chatgpt".toList then
    chatgptChatCompletionV2 st messages msgSource net
  else if st.config.provider = "qwen".toList then
    qwenChatCompletion st messages msgSource net
  else
    ((.error "Unsupported AI provider".toList, false), messages)

/-- After the guard, the caller-visible array of `qwenChatCompletion`
is always the instructions message followed by the original entries. -/
lemma qwenChatCompletion_array_after (st : AIServiceState) (messages : List APIMessage)
    (msgSource : MessageSource) (net : NetworkOracle) (h : st.openai = true) :
    (qwenChatCompletion st messages msgSource net).2 =
      qwenInstructionMessage msgSource :: messages := by
  simp [qwenChatCompletion, h]

/-- C9: for a qwen-configured service constructed with a non-empty api
key, after every `chatCompletion` call the caller's message array has
been changed: the in-place `unshift` leaves it equal to the synthetic
instructions message followed by the original entries, so payload
construction is not pure with respect to its input. -/
theorem qwen_chatCompletion_mutates_messages (config : AIConfig)
    (messages : List APIMessage) (msgSource : MessageSource) (net : NetworkOracle)
    (st : AIServiceState)
    (hq : config.provider = "qwen".toList)
    (hinit : AIServiceInitV2 config = .ok st) :
    (chatCompletionV2 st messages msgSource net).2 =
      qwenInstructionMessage msgSource :: messages ∧
    (chatCompletionV2 st messages msgSource net).2 ≠ messages := by
  have hk : config.apiKey ≠ [] := by
    intro hk
    simp [AIServiceInitV2, hk] at hinit
  have hst : st = { openai := true, anthropic := false, config := config } := by
    have h1 : AIServiceInitV2 config =
        .ok (initializeClientV2 { openai := false, anthropic := false, config := config }) := by
      simp [AIServiceInitV2, hk]
    rw [h1] at hinit
    have h2 : initializeClientV2 { openai := false, anthropic := false, config := config } =
        { openai := true, anthropic := false, config := config } := by
      simp [initializeClientV2, hq]
    rw [h2] at hinit
    exact (Except.ok.injEq _ _).mp hinit.symm |>.symm ▸ rfl
  have hdispatch : chatCompletionV2 st messages msgSource net =
      qwenChatCompletion st messages msgSource net := by
    rw [hst]
    simp [chatCompletionV2, hq]
  have harr := qwenChatCompletion_array_after st messages msgSource net
    (by rw [hst])
  rw [hdispatch, harr]
  refine ⟨rfl, ?_⟩
  intro heq
  have := congrArg List.length heq
  simp at this

/-- A qwen configuration with a non-empty api key. -/
def qwenConfig : AIConfig :=
  { provider := "qwen".toList
    apiKey := "k".toList
    model := "qwen-vl-plus".toList }

/-- A plain user message. -/
def sampleAPIMessage : APIMessage :=
  { role := .user
    content := [APIContentPart.text "hello".toList] }

/-- Witness for C9 at a concrete qwen service, one-element history and
the all-throwing network. -/
theorem qwen_chatCompletion_mutates_messages_witness :
    (chatCompletionV2
        (initializeClientV2 { openai := false, anthropic := false, config := qwenConfig })
        [sampleAPIMessage] .comment nullOracle).2 =
      qwenInstructionMessage .comment :: [sampleAPIMessage] ∧
    (chatCompletionV2
        (initializeClientV2 { openai := false, anthropic := false, config := qwenConfig })
        [sampleAPIMessage] .comment nullOracle).2 ≠ [sampleAPIMessage] :=
  qwen_chatCompletion_mutates_messages qwenConfig [sampleAPIMessage] .comment nullOracle
    _ rfl rfl

end XhsAiTool
